import Mathlib

/-!
Verification development for the Tuya BLE integration
(`custom_components/tuya_ble/devices.py`).

The development shallowly embeds:

* the static product catalog (`devices_database`) and its lookup helpers
  (`get_product_info_by_ids`, `get_device_product_info`);
* the address normalisation helpers (`get_full_address`,
  `get_short_address`), with strings modelled as `List Char` so that
  Python's `str.replace`/`str.upper`/`str.split`/`str.join` become
  explicit character-list operations;
* the connection-lifecycle coordinator (`TuyaBLECoordinator`): its
  mutable fields `_disconnected` and `_unsub_disconnect`, the callbacks
  `_async_handle_connect`, `_async_handle_update`,
  `_async_handle_disconnect` and `_set_disconnected`, together with an
  explicit model of the external one-shot timer scheduler
  (`async_call_later`) as timer identifiers plus `fire` steps.

Observable effects that the Python code sends to the host platform are
instrumented in the coordinator state: the number of observer
notifications delivered to the listener set (`async_update_listeners`
calls plus the listener notification that the inherited framework method
`async_set_updated_data` performs on the same listener set), the number
of `async_set_updated_data` calls themselves, and the list of fingerbot
button events fired on the event bus.
-/

namespace TuyaBLE

/-! ## Data model (from `devices.py`) -/

/-- Embeds `TuyaBLEFingerbotInfo`: DP mappings of a Fingerbot device.
Field defaults `manual_control = 0` and `program = 0` are the dataclass
defaults of the source. -/
structure TuyaBLEFingerbotInfo where
  switch : Nat
  mode : Nat
  up_position : Nat
  down_position : Nat
  hold_time : Nat
  reverse_positions : Nat
  manual_control : Nat := 0
  program : Nat := 0
  deriving DecidableEq, Repr

/-- Modelled from the spec: the constant module of the repository is not
under `src/`; the catalog's default manufacturer string
(`DEVICE_DEF_MANUFACTURER`) is an opaque constant whose exact value no
claim depends on. -/
def DEVICE_DEF_MANUFACTURER : String := "Tuya"

/-- Embeds `TuyaBLEProductInfo`: information about a Tuya BLE product. -/
structure TuyaBLEProductInfo where
  name : String
  manufacturer : String := DEVICE_DEF_MANUFACTURER
  fingerbot : Option TuyaBLEFingerbotInfo := none
  deriving DecidableEq, Repr

/-- Embeds `TuyaBLECategoryInfo`: the per-category collection of product
info objects; `info` is the category-level fallback (dataclass default
`None`). -/
structure TuyaBLECategoryInfo where
  products : List (String × TuyaBLEProductInfo)
  info : Option TuyaBLEProductInfo := none
  deriving DecidableEq, Repr

/-! ### The shipped device database

Python's dict literals become association lists; `dict.fromkeys(keys, v)`
becomes one shared product value bound to each key.  Keys are pairwise
distinct in the source, so association-list lookup agrees with dict
lookup. -/

def co2_detector : TuyaBLEProductInfo := { name := "CO2 Detector" }

def smart_lock : TuyaBLEProductInfo := { name := "Smart Lock" }

def cubetouch_1s : TuyaBLEProductInfo :=
  { name := "CUBETOUCH 1s"
    fingerbot := some
      { switch := 1, mode := 2, up_position := 5, down_position := 6
        hold_time := 3, reverse_positions := 4 } }

def cubetouch_2 : TuyaBLEProductInfo :=
  { name := "CubeTouch II"
    fingerbot := some
      { switch := 1, mode := 2, up_position := 5, down_position := 6
        hold_time := 3, reverse_positions := 4 } }

/-- The `TuyaBLEFingerbotInfo` of the "Fingerbot Plus" products: the only
catalog entry with a nonzero `manual_control`. -/
def fingerbot_plus_fb : TuyaBLEFingerbotInfo :=
  { switch := 2, mode := 8, up_position := 15, down_position := 9
    hold_time := 10, reverse_positions := 11, manual_control := 17
    program := 121 }

def fingerbot_plus : TuyaBLEProductInfo :=
  { name := "Fingerbot Plus", fingerbot := some fingerbot_plus_fb }

/-- The `TuyaBLEFingerbotInfo` of the plain "Fingerbot" products;
`manual_control` keeps its default `0`. -/
def fingerbot_fb : TuyaBLEFingerbotInfo :=
  { switch := 2, mode := 8, up_position := 15, down_position := 9
    hold_time := 10, reverse_positions := 11, program := 121 }

def fingerbot_product : TuyaBLEProductInfo :=
  { name := "Fingerbot", fingerbot := some fingerbot_fb }

def thermostatic_valve : TuyaBLEProductInfo :=
  { name := "Thermostatic Radiator Valve" }

def soil_sensor : TuyaBLEProductInfo := { name := "Soil moisture sensor" }

def water_bottle : TuyaBLEProductInfo := { name := "Smart water bottle" }

def irrigation_computer : TuyaBLEProductInfo := { name := "Irrigation computer" }

/-- Embeds `devices_database`: the catalog of known Tuya BLE devices,
keyed by category, then by product id. -/
def devices_database : List (String × TuyaBLECategoryInfo) :=
  [ ("co2bj", { products := [("59s19z5m", co2_detector)] }),
    ("ms",
      { products :=
          [ ("ludzroix", smart_lock), ("isk2p555", smart_lock),
            ("isljqiq1", smart_lock) ] }),
    ("szjqr",
      { products :=
          [ ("3yqdo5yt", cubetouch_1s),
            ("xhf790if", cubetouch_2),
            ("blliqpsj", fingerbot_plus), ("ndvkgsrm", fingerbot_plus),
            ("yiihr7zh", fingerbot_plus), ("neq16kgd", fingerbot_plus),
            ("ltak7e1p", fingerbot_product), ("y6kttvd6", fingerbot_product),
            ("yrnk7mnn", fingerbot_product), ("nvr2rocq", fingerbot_product),
            ("bnt7wajf", fingerbot_product), ("rvdceqjh", fingerbot_product),
            ("5xhbk964", fingerbot_product) ] }),
    ("wk",
      { products :=
          [ ("drlajpqc", thermostatic_valve), ("nhj2j7su", thermostatic_valve) ] }),
    ("wsdcg", { products := [("ojzlzzsw", soil_sensor)] }),
    ("znhsb", { products := [("cdlandip", water_bottle)] }),
    ("ggq", { products := [("6pahkcau", irrigation_computer)] }) ]

/-- Embeds `get_product_info_by_ids`.  Python's `dict.get` is
association-list lookup; the truthiness test `if not category_info`
distinguishes exactly `None` because dataclass instances are always
truthy. -/
def get_product_info_by_ids (category product_id : String) :
    Option TuyaBLEProductInfo :=
  match devices_database.lookup category with
  | none => none
  | some category_info =>
    match category_info.products.lookup product_id with
    | some product_info => some product_info
    | none => category_info.info

/-! ## Address helpers -/

/-- Embeds `get_full_address`: `address.replace("-", ":").upper()`.
Replacing the single character `-` by `:` is a character map, performed
before uppercasing, exactly as in the source. -/
def get_full_address (address : List Char) : List Char :=
  (address.map (fun c => if c = '-' then ':' else c)).map Char.toUpper

/-- Helper for `splitOn`: accumulates the current group (in reverse) and
closes it at each separator, mirroring Python's `str.split(sep)` on a
single-character separator (which always yields at least one group and
keeps empty groups). -/
def splitOnAux (sep : Char) : List Char → List Char → List (List Char)
  | [], acc => [acc.reverse]
  | c :: cs, acc =>
    if c = sep then acc.reverse :: splitOnAux sep cs []
    else splitOnAux sep cs (c :: acc)

/-- Python's `full.split(":")` for character lists. -/
def splitOn (sep : Char) (l : List Char) : List (List Char) :=
  splitOnAux sep l []

/-- Python's `":".join(parts)` for character lists. -/
def intercalate (sep : Char) : List (List Char) → List Char
  | [] => []
  | [x] => x
  | x :: y :: rest => x ++ sep :: intercalate sep (y :: rest)

/-- Python's slice `parts[-3:]` generalised: the last `n` elements. -/
def lastN (n : Nat) (l : List α) : List α := l.drop (l.length - n)

/-- Embeds `get_short_address`: split the normalised address on `:` and
join the last three groups. -/
def get_short_address (address : List Char) : List Char :=
  intercalate ':' (lastN 3 (splitOn ':' (get_full_address address)))

/-! ## The connection-lifecycle coordinator -/

/-- Modelled from the spec: the external device/transport object
(`TuyaBLEDevice`, defined in the protocol package outside `src/`).  Only
the identity fields the coordinator actually reads are modelled: the BLE
address, the device identifier, and the category / product id used for
the catalog lookup. -/
structure TuyaBLEDevice where
  address : String
  device_id : String
  category : String
  product_id : String
  deriving DecidableEq, Repr

/-- Embeds `get_device_product_info`. -/
def get_device_product_info (device : TuyaBLEDevice) :
    Option TuyaBLEProductInfo :=
  get_product_info_by_ids device.category device.product_id

/-- Embeds `TuyaBLEDataPoint` as far as the coordinator reads it: the
datapoint id, an (uninspected) value, and the `changed_by_device` flag. -/
structure TuyaBLEDataPoint where
  id : Nat
  value : Bool
  changed_by_device : Bool
  deriving DecidableEq, Repr

/-- The payload of the `FINGERBOT_BUTTON_EVENT` fired on the event bus:
`{CONF_ADDRESS: device.address, CONF_DEVICE_ID: device.device_id}`. -/
structure FingerbotButtonEvent where
  address : String
  device_id : String
  deriving DecidableEq, Repr

/-- Modelled from the spec: `SET_DISCONNECTED_DELAY`, the fixed debounce
delay constant from the constant module (not under `src/`); the spec says
only that it is a named constant on the order of tens of seconds, and no
claim depends on the value.  The step semantics below abstracts real time:
a scheduled timer either fires (the delay elapsed) or is cancelled first. -/
def SET_DISCONNECTED_DELAY : Nat := 20

/-- The coordinator state.  The first two fields embed the mutable Python
fields `_disconnected` and `_unsub_disconnect`; `_unsub_disconnect`
stores the cancellation handle returned by `async_call_later`, modelled
as the identifier of the timer it cancels.

The scheduler (`async_call_later`, external) is modelled explicitly:
`alive` holds the identifiers of scheduled one-shot timers that have
neither fired nor been cancelled, and `nextTimerId` supplies fresh
identifiers.

The remaining fields instrument the effects the Python code sends to the
host platform: `listenerNotifications` counts notifications delivered to
the observer/listener set — direct `async_update_listeners` calls plus
the listener notification performed by each `async_set_updated_data`
call, since that inherited framework method's contract is to update the
data and notify the same listeners; `setUpdatedDataCalls` counts the
`async_set_updated_data` calls themselves; and `firedEvents` records the
fingerbot button events fired on the bus (the separate event-bus
channel). -/
structure CoordState where
  disconnected : Bool
  unsub_disconnect : Option Nat
  alive : List Nat
  nextTimerId : Nat
  listenerNotifications : Nat
  setUpdatedDataCalls : Nat
  firedEvents : List FingerbotButtonEvent
  deriving DecidableEq, Repr

/-- Embeds `TuyaBLECoordinator.__init__`: `self._disconnected = True`,
`self._unsub_disconnect = None`; no timers exist and no effects have been
emitted yet. -/
def initState : CoordState :=
  { disconnected := true
    unsub_disconnect := none
    alive := []
    nextTimerId := 0
    listenerNotifications := 0
    setUpdatedDataCalls := 0
    firedEvents := [] }

/-- Embeds the `connected` property: `not self._disconnected`. -/
def connected (s : CoordState) : Bool := !s.disconnected

/-- Embeds `TuyaBLEEntity.available`: `self._coordinator.connected`. -/
def available (s : CoordState) : Bool := connected s

/-- Embeds `_async_handle_connect`.  The source reads:

    if self._unsub_disconnect is not None:
        self._unsub_disconnect()
    if self._disconnected:
        self._disconnected = False
        self.async_update_listeners()

Note that the stored handle is invoked (cancelling its timer) but the
field `_unsub_disconnect` is NOT reset to `None`; the embedding keeps
this faithfully.  Cancelling a timer that already fired or was already
cancelled is a no-op, which `List.erase` on an absent id reproduces. -/
def async_handle_connect (s : CoordState) : CoordState :=
  let s1 :=
    match s.unsub_disconnect with
    | some id => { s with alive := s.alive.erase id }
    | none => s
  if s1.disconnected then
    { s1 with
        disconnected := false
        listenerNotifications := s1.listenerNotifications + 1 }
  else s1

/-- Embeds `_set_disconnected`, the debounce-fire callback:
`self._disconnected = True; self._unsub_disconnect = None;
self.async_update_listeners()`. -/
def set_disconnected (s : CoordState) : CoordState :=
  { s with
      disconnected := true
      unsub_disconnect := none
      listenerNotifications := s.listenerNotifications + 1 }

/-- Embeds `_async_handle_disconnect`: when no handle is stored, schedule
`_set_disconnected` via `async_call_later(self.hass,
SET_DISCONNECTED_DELAY, ...)` (a fresh one-shot timer) and store its
cancellation handle; otherwise do nothing. -/
def async_handle_disconnect (s : CoordState) : CoordState :=
  match s.unsub_disconnect with
  | some _ => s
  | none =>
    { s with
        unsub_disconnect := some s.nextTimerId
        alive := s.alive ++ [s.nextTimerId]
        nextTimerId := s.nextTimerId + 1 }

/-- Modelled from the spec: natural expiry of the external scheduler's
one-shot timer (`async_call_later` is outside `src/`).  A timer may fire
only while it is scheduled and uncancelled; firing consumes it and runs
the registered callback `_set_disconnected`. -/
def fireTimer (s : CoordState) (id : Nat) : CoordState :=
  if id ∈ s.alive then set_disconnected { s with alive := s.alive.erase id }
  else s

/-- The test `update.id == info.fingerbot.switch and
update.changed_by_device` from the edge-detection loop. -/
def isButtonPress (fb : TuyaBLEFingerbotInfo) (u : TuyaBLEDataPoint) : Bool :=
  u.id == fb.switch && u.changed_by_device

/-- The edge-detection `for` loop of `_async_handle_update`: fire one
`FINGERBOT_BUTTON_EVENT` per matching record, in order. -/
def fireButtonEvents (dev : TuyaBLEDevice) (fb : TuyaBLEFingerbotInfo)
    (updates : List TuyaBLEDataPoint) (s : CoordState) : CoordState :=
  updates.foldl
    (fun t u =>
      if isButtonPress fb u then
        { t with
            firedEvents := t.firedEvents ++
              [{ address := dev.address, device_id := dev.device_id }] }
      else t)
    s

/-- Modelled from the framework contract: `async_set_updated_data` is
inherited from the host's `DataUpdateCoordinator` (outside this
repository); its documented behaviour is to update the stored data,
notify listeners and reset the refresh interval.  It therefore delivers
one notification to the same observer/listener set that
`async_update_listeners` addresses, in addition to being counted as a
data-push call. -/
def async_set_updated_data (s : CoordState) : CoordState :=
  { s with
      listenerNotifications := s.listenerNotifications + 1
      setUpdatedDataCalls := s.setUpdatedDataCalls + 1 }

/-- Embeds `_async_handle_update`: first `self._async_handle_connect()`,
then `self.async_set_updated_data(None)` (which notifies the listener
set once more), then the fingerbot edge-detection scan guarded by
`if info and info.fingerbot and info.fingerbot.manual_control != 0`. -/
def async_handle_update (dev : TuyaBLEDevice)
    (updates : List TuyaBLEDataPoint) (s : CoordState) : CoordState :=
  let s1 := async_handle_connect s
  let s2 := async_set_updated_data s1
  match get_device_product_info dev with
  | some info =>
    match info.fingerbot with
    | some fb =>
      if fb.manual_control ≠ 0 then fireButtonEvents dev fb updates s2 else s2
    | none => s2
  | none => s2

/-! ### Runs of the coordinator

A run interleaves the three transport callbacks with natural timer
expiries of the external scheduler. -/

/-- One event of a run: a transport callback or a timer expiry. -/
inductive Step where
  | connect
  | dataUpdate (updates : List TuyaBLEDataPoint)
  | disconnect
  | fire (id : Nat)
  deriving DecidableEq, Repr

/-- Apply one step; callbacks are serialized (single-threaded event
loop), so a run is just a fold. -/
def applyStep (dev : TuyaBLEDevice) (s : CoordState) : Step → CoordState
  | .connect => async_handle_connect s
  | .dataUpdate updates => async_handle_update dev updates s
  | .disconnect => async_handle_disconnect s
  | .fire id => fireTimer s id

/-- Run a list of steps from a state. -/
def runSteps (dev : TuyaBLEDevice) (s : CoordState) (steps : List Step) :
    CoordState :=
  steps.foldl (applyStep dev) s

/-- All states visited by a run, starting state included. -/
def visited (dev : TuyaBLEDevice) (s : CoordState) : List Step → List CoordState
  | [] => [s]
  | st :: rest => s :: visited dev (applyStep dev s st) rest

/-- A concrete device used to instantiate closed run theorems; the
coordinator's connection logic never reads these fields. -/
def dev0 : TuyaBLEDevice :=
  { address := "AA:BB:CC:DD:EE:FF", device_id := "dev0"
    category := "co2bj", product_id := "59s19z5m" }

/-- A concrete "Fingerbot Plus" device (catalog entry with
`manual_control = 17`). -/
def fingerbotDev : TuyaBLEDevice :=
  { address := "11:22:33:44:55:66", device_id := "fb1"
    category := "szjqr", product_id := "blliqpsj" }

/-- A concrete plain "Fingerbot" device (`manual_control = 0`). -/
def plainFingerbotDev : TuyaBLEDevice :=
  { address := "77:88:99:AA:BB:CC", device_id := "fb2"
    category := "szjqr", product_id := "ltak7e1p" }

/-! ## Componentwise lemmas about the operations -/

@[simp]
lemma connect_disconnected (s : CoordState) :
    (async_handle_connect s).disconnected = false := by
  unfold async_handle_connect
  cases h : s.unsub_disconnect <;> cases hd : s.disconnected <;> simp [h, hd]

@[simp]
lemma connect_unsub (s : CoordState) :
    (async_handle_connect s).unsub_disconnect = s.unsub_disconnect := by
  unfold async_handle_connect
  cases h : s.unsub_disconnect <;> cases hd : s.disconnected <;> simp [h, hd]

@[simp]
lemma connect_nextTimerId (s : CoordState) :
    (async_handle_connect s).nextTimerId = s.nextTimerId := by
  unfold async_handle_connect
  cases h : s.unsub_disconnect <;> cases hd : s.disconnected <;> simp [h, hd]

@[simp]
lemma connect_listener (s : CoordState) :
    (async_handle_connect s).listenerNotifications =
      s.listenerNotifications + (if s.disconnected then 1 else 0) := by
  unfold async_handle_connect
  cases h : s.unsub_disconnect <;> cases hd : s.disconnected <;> simp [h, hd]

@[simp]
lemma connect_setCalls (s : CoordState) :
    (async_handle_connect s).setUpdatedDataCalls = s.setUpdatedDataCalls := by
  unfold async_handle_connect
  cases h : s.unsub_disconnect <;> cases hd : s.disconnected <;> simp [h, hd]

@[simp]
lemma connect_firedEvents (s : CoordState) :
    (async_handle_connect s).firedEvents = s.firedEvents := by
  unfold async_handle_connect
  cases h : s.unsub_disconnect <;> cases hd : s.disconnected <;> simp [h, hd]

lemma connect_alive_none (s : CoordState) (h : s.unsub_disconnect = none) :
    (async_handle_connect s).alive = s.alive := by
  unfold async_handle_connect
  cases hd : s.disconnected <;> simp [h, hd]

lemma connect_alive_some (s : CoordState) (id : Nat)
    (h : s.unsub_disconnect = some id) :
    (async_handle_connect s).alive = s.alive.erase id := by
  unfold async_handle_connect
  cases hd : s.disconnected <;> simp [h, hd]

lemma disconnect_of_some (s : CoordState) (id : Nat)
    (h : s.unsub_disconnect = some id) : async_handle_disconnect s = s := by
  unfold async_handle_disconnect
  simp [h]

lemma disconnect_of_none (s : CoordState) (h : s.unsub_disconnect = none) :
    async_handle_disconnect s =
      { s with
          unsub_disconnect := some s.nextTimerId
          alive := s.alive ++ [s.nextTimerId]
          nextTimerId := s.nextTimerId + 1 } := by
  unfold async_handle_disconnect
  simp [h]

@[simp]
lemma disconnect_disconnected (s : CoordState) :
    (async_handle_disconnect s).disconnected = s.disconnected := by
  unfold async_handle_disconnect
  cases h : s.unsub_disconnect <;> simp

@[simp]
lemma disconnect_listener (s : CoordState) :
    (async_handle_disconnect s).listenerNotifications =
      s.listenerNotifications := by
  unfold async_handle_disconnect
  cases h : s.unsub_disconnect <;> simp

lemma disconnect_unsub_isSome (s : CoordState) :
    (async_handle_disconnect s).unsub_disconnect.isSome = true := by
  unfold async_handle_disconnect
  cases h : s.unsub_disconnect <;> simp [h]

lemma fire_of_not_mem (s : CoordState) (id : Nat) (h : id ∉ s.alive) :
    fireTimer s id = s := by
  unfold fireTimer
  simp [h]

/-- The edge-detection loop only appends button events: it fires one
event per record satisfying `isButtonPress`, in order, and touches no
other field. -/
lemma fireButtonEvents_eq (dev : TuyaBLEDevice) (fb : TuyaBLEFingerbotInfo)
    (updates : List TuyaBLEDataPoint) (s : CoordState) :
    fireButtonEvents dev fb updates s =
      { s with
          firedEvents := s.firedEvents ++
            List.replicate (updates.countP (isButtonPress fb))
              { address := dev.address, device_id := dev.device_id } } := by
  induction updates generalizing s with
  | nil => simp [fireButtonEvents]
  | cons u us ih =>
    simp only [fireButtonEvents, List.foldl_cons] at ih ⊢
    rw [ih]
    cases h : isButtonPress fb u <;>
      simp [h, List.countP_cons, List.replicate_succ]

/-- The button events a single `_async_handle_update` call fires, as a
function of the device's catalog entry and the update batch. -/
def buttonEvents (dev : TuyaBLEDevice) (updates : List TuyaBLEDataPoint) :
    List FingerbotButtonEvent :=
  match get_device_product_info dev with
  | some info =>
    match info.fingerbot with
    | some fb =>
      if fb.manual_control ≠ 0 then
        List.replicate (updates.countP (isButtonPress fb))
          { address := dev.address, device_id := dev.device_id }
      else []
    | none => []
  | none => []

/-- `_async_handle_update` is `_async_handle_connect` followed by one
`async_set_updated_data` call (which notifies listeners once more) and
the batch's button events. -/
lemma update_eq (dev : TuyaBLEDevice) (updates : List TuyaBLEDataPoint)
    (s : CoordState) :
    async_handle_update dev updates s =
      { async_handle_connect s with
          listenerNotifications :=
            (async_handle_connect s).listenerNotifications + 1
          setUpdatedDataCalls := (async_handle_connect s).setUpdatedDataCalls + 1
          firedEvents :=
            (async_handle_connect s).firedEvents ++ buttonEvents dev updates } := by
  unfold async_handle_update async_set_updated_data buttonEvents
  cases hinfo : get_device_product_info dev with
  | none => simp
  | some info =>
    cases hfb : info.fingerbot with
    | none => simp [hfb]
    | some fb =>
      by_cases h : fb.manual_control = 0 <;> simp [hfb, h, fireButtonEvents_eq]

/-! ## Reachability invariant and the absorbing region -/

/-- At most one debounce timer is ever scheduled, and a scheduled timer
is exactly the one the stored handle refers to.  (The converse fails: the
stored handle may refer to an already-cancelled timer, because
`_async_handle_connect` does not clear the field.) -/
def TimerInv (s : CoordState) : Prop :=
  s.alive = [] ∨ ∃ id, s.alive = [id] ∧ s.unsub_disconnect = some id

lemma timerInv_init : TimerInv initState := Or.inl rfl

/-- From any state satisfying the invariant, `_async_handle_connect`
leaves no scheduled timer: whatever the stored handle pointed at is gone
afterwards. -/
lemma connect_alive_of_inv (s : CoordState) (h : TimerInv s) :
    (async_handle_connect s).alive = [] := by
  rcases h with ha | ⟨id, ha, hu⟩
  · cases hu : s.unsub_disconnect with
    | none => rw [connect_alive_none s hu, ha]
    | some id => rw [connect_alive_some s id hu, ha]; rfl
  · rw [connect_alive_some s id hu, ha]
    simp

lemma timerInv_connect (s : CoordState) (h : TimerInv s) :
    TimerInv (async_handle_connect s) :=
  Or.inl (connect_alive_of_inv s h)

lemma timerInv_disconnect (s : CoordState) (h : TimerInv s) :
    TimerInv (async_handle_disconnect s) := by
  cases hu : s.unsub_disconnect with
  | some id => rw [disconnect_of_some s id hu]; exact h
  | none =>
    rw [disconnect_of_none s hu]
    rcases h with ha | ⟨id, ha, hu2⟩
    · exact Or.inr ⟨s.nextTimerId, by simp [ha], rfl⟩
    · rw [hu] at hu2; cases hu2

lemma timerInv_fire (s : CoordState) (id : Nat) (h : TimerInv s) :
    TimerInv (fireTimer s id) := by
  unfold fireTimer
  by_cases hm : id ∈ s.alive
  · rw [if_pos hm]
    rcases h with ha | ⟨id2, ha, hu⟩
    · rw [ha] at hm; cases hm
    · left
      rw [ha] at hm
      have : id = id2 := by simpa using hm
      subst this
      simp [set_disconnected, ha]
  · rw [if_neg hm]; exact h

lemma timerInv_update (dev : TuyaBLEDevice) (updates : List TuyaBLEDataPoint)
    (s : CoordState) (h : TimerInv s) :
    TimerInv (async_handle_update dev updates s) := by
  rw [update_eq]
  left
  simpa using connect_alive_of_inv s h

lemma timerInv_step (dev : TuyaBLEDevice) (s : CoordState) (st : Step)
    (h : TimerInv s) : TimerInv (applyStep dev s st) := by
  cases st with
  | connect => exact timerInv_connect s h
  | dataUpdate us => exact timerInv_update dev us s h
  | disconnect => exact timerInv_disconnect s h
  | fire id => exact timerInv_fire s id h

lemma timerInv_run (dev : TuyaBLEDevice) :
    ∀ (steps : List Step) (s : CoordState), TimerInv s →
      TimerInv (runSteps dev s steps)
  | [], _, h => h
  | st :: rest, s, h =>
    timerInv_run dev rest (applyStep dev s st) (timerInv_step dev s st h)

/-- The absorbing region the coordinator enters after a cancellation:
connected, no scheduled timer, but a (stale) stored handle.  Every
operation keeps the coordinator here: `_async_handle_disconnect` sees the
stale handle and refuses to schedule, and no timer can fire. -/
def Quiescent (s : CoordState) : Prop :=
  s.disconnected = false ∧ s.alive = [] ∧ s.unsub_disconnect.isSome = true

lemma quiescent_step (dev : TuyaBLEDevice) (s : CoordState) (st : Step)
    (h : Quiescent s) : Quiescent (applyStep dev s st) := by
  obtain ⟨hd, ha, hu⟩ := h
  obtain ⟨id, hid⟩ := Option.isSome_iff_exists.mp hu
  cases st with
  | connect =>
    show Quiescent (async_handle_connect s)
    refine ⟨connect_disconnected s, ?_, ?_⟩
    · rw [connect_alive_some s id hid, ha]; rfl
    · rw [connect_unsub, hid]; rfl
  | dataUpdate us =>
    show Quiescent (async_handle_update dev us s)
    rw [update_eq]
    refine ⟨connect_disconnected s, ?_, ?_⟩
    · show (async_handle_connect s).alive = []
      rw [connect_alive_some s id hid, ha]; rfl
    · show (async_handle_connect s).unsub_disconnect.isSome = true
      rw [connect_unsub, hid]; rfl
  | disconnect =>
    show Quiescent (async_handle_disconnect s)
    rw [disconnect_of_some s id hid]
    exact ⟨hd, ha, hu⟩
  | fire id2 =>
    show Quiescent (fireTimer s id2)
    rw [fire_of_not_mem s id2 (by rw [ha]; exact List.not_mem_nil id2)]
    exact ⟨hd, ha, hu⟩

lemma quiescent_visited (dev : TuyaBLEDevice) :
    ∀ (steps : List Step) (s : CoordState), Quiescent s →
      ∀ t ∈ visited dev s steps, Quiescent t
  | [], s, h, t, ht => by
    simp only [visited, List.mem_singleton] at ht
    rw [ht]; exact h
  | st :: rest, s, h, t, ht => by
    simp only [visited, List.mem_cons] at ht
    rcases ht with rfl | ht
    · exact h
    · exact quiescent_visited dev rest (applyStep dev s st)
        (quiescent_step dev s st h) t ht

/-! ## Split / join lemmas for the address helpers -/

lemma splitOnAux_ne_nil (sep : Char) :
    ∀ (l acc : List Char), splitOnAux sep l acc ≠ []
  | [], acc => by simp [splitOnAux]
  | c :: cs, acc => by
    unfold splitOnAux
    by_cases h : c = sep
    · simp [h]
    · simpa [h] using splitOnAux_ne_nil sep cs (c :: acc)

/-- Joining the groups produced by `splitOnAux` restores the input,
prefixed by the reversed accumulator. -/
lemma intercalate_splitOnAux (sep : Char) :
    ∀ (l acc : List Char),
      intercalate sep (splitOnAux sep l acc) = acc.reverse ++ l
  | [], acc => by simp [splitOnAux, intercalate]
  | c :: cs, acc => by
    unfold splitOnAux
    by_cases h : c = sep
    · rw [if_pos h]
      obtain ⟨d, ds, hds⟩ : ∃ d ds, splitOnAux sep cs [] = d :: ds := by
        cases hh : splitOnAux sep cs [] with
        | nil => exact absurd hh (splitOnAux_ne_nil sep cs [])
        | cons d ds => exact ⟨d, ds, rfl⟩
      have hcs : intercalate sep (d :: ds) = cs := by
        have := intercalate_splitOnAux sep cs []
        rw [hds] at this
        simpa using this
      rw [hds, intercalate, hcs, h]
    · rw [if_neg h, intercalate_splitOnAux sep cs (c :: acc)]
      simp

/-- Python's `sep.join(s.split(sep)) == s`, for character lists. -/
lemma intercalate_splitOn (sep : Char) (l : List Char) :
    intercalate sep (splitOn sep l) = l := by
  simpa using intercalate_splitOnAux sep l []

/-- A successful association-list lookup returns a value stored in the
list (under some key). -/
lemma lookup_mem_values {α β : Type} [BEq α] :
    ∀ (l : List (α × β)) (a : α) (b : β),
      l.lookup a = some b → ∃ k, (k, b) ∈ l
  | [], a, b, h => by simp [List.lookup] at h
  | (k, v) :: es, a, b, h => by
    rw [List.lookup] at h
    cases hk : a == k with
    | true =>
      rw [hk] at h
      exact ⟨k, by simp [Option.some_inj.mp h]⟩
    | false =>
      rw [hk] at h
      obtain ⟨k2, hm⟩ := lookup_mem_values es a b h
      exact ⟨k2, List.mem_cons_of_mem _ hm⟩

/-! ## The claims -/

/-- Claim C8: a freshly constructed coordinator starts disconnected with
no stored timer handle, so the `connected` accessor and the derived
entity availability report false until a connect or data-update signal
arrives. -/
theorem c8_initial_state :
    initState.disconnected = true ∧ initState.unsub_disconnect = none ∧
      connected initState = false ∧ available initState = false :=
  ⟨rfl, rfl, rfl, rfl⟩

/-- Claim C1 (code bug): with a pending debounce timer (id 0, scheduled
by one disconnect signal from the initial state), `_async_handle_connect`
cancels the scheduled timer but does not clear the stored
`_unsub_disconnect` field — the source lacks a
`self._unsub_disconnect = None` assignment on this path — so afterwards
the coordinator still holds a stale handle, contradicting the claim that
no timer reference remains. -/
theorem c1_connect_keeps_stale_handle :
    (async_handle_connect (async_handle_disconnect initState)).alive = []
  ∧ (async_handle_connect (async_handle_disconnect initState)).unsub_disconnect
      = some 0 :=
  ⟨rfl, rfl⟩

/-- Claim C2 (code bug): from the reachable state left by a
disconnect/connect pair, two consecutive `_async_handle_disconnect`
calls schedule nothing at all — the stale stored handle makes both calls
no-ops — leaving zero pending timers instead of exactly one; the timer
id counter confirms only the very first disconnect ever created a
timer. -/
theorem c2_disconnects_blocked_by_stale_handle :
    (runSteps dev0 initState
        [Step.disconnect, Step.connect, Step.disconnect, Step.disconnect]).alive
      = []
  ∧ (runSteps dev0 initState
        [Step.disconnect, Step.connect, Step.disconnect, Step.disconnect]).nextTimerId
      = 1 :=
  ⟨rfl, rfl⟩

/-- Claim C5 (code bug): after a reconnect has cancelled the debounce
timer, the stale stored handle blocks `_async_handle_disconnect`, so a
later disconnect signal with no subsequent connect schedules nothing: no
timer is alive, firing attempts change nothing, and the coordinator
stays connected forever instead of reporting `connected() == false`
after the delay with one notification at fire time. -/
theorem c5_disconnect_after_reconnect_never_fires :
    (runSteps dev0 initState
        [Step.connect, Step.disconnect, Step.connect, Step.disconnect]).disconnected
      = false
  ∧ (runSteps dev0 initState
        [Step.connect, Step.disconnect, Step.connect, Step.disconnect]).alive = []
  ∧ runSteps dev0
        (runSteps dev0 initState
          [Step.connect, Step.disconnect, Step.connect, Step.disconnect])
        [Step.fire 0, Step.fire 1]
      = runSteps dev0 initState
          [Step.connect, Step.disconnect, Step.connect, Step.disconnect] :=
  ⟨rfl, rfl, rfl⟩

/-- Claim C7 counterexample: from an already-connected state (reached by
one connect from the initial state), calling `_async_handle_connect`
twice produces zero observer notifications, not exactly one in total. -/
theorem c7_counterexample_already_connected :
    (runSteps dev0 (async_handle_connect initState)
        [Step.connect, Step.connect]).listenerNotifications
      ≠ (async_handle_connect initState).listenerNotifications + 1 := by
  decide

/-- Claim C7 (amended): calling `_async_handle_connect` twice in a row
produces exactly one observer notification when the starting state was
disconnected and none when it was already connected; the second call is
always a no-op that emits no notification and leaves the disconnected
flag where the first call put it. -/
theorem c7_connect_idempotent (s : CoordState) :
    (async_handle_connect (async_handle_connect s)).listenerNotifications
        = s.listenerNotifications + (if s.disconnected then 1 else 0)
  ∧ (async_handle_connect (async_handle_connect s)).listenerNotifications
        = (async_handle_connect s).listenerNotifications
  ∧ (async_handle_connect (async_handle_connect s)).disconnected
        = (async_handle_connect s).disconnected := by
  refine ⟨by simp, by simp, by simp⟩

/-- Claim C3 counterexample: a data update received in the initial
(disconnected) state does not fire exactly one observer notification:
the embedded connect step notifies the listener set once and the
framework data push `async_set_updated_data` notifies it again, so two
notifications reach the observers during the call. -/
theorem c3_counterexample_single_notification :
    initState.disconnected = true
  ∧ (async_handle_update dev0 [] initState).listenerNotifications
      ≠ initState.listenerNotifications + 1 :=
  ⟨rfl, by decide⟩

/-- Claim C3 (amended): a data update received while disconnected flips
the state to connected and fires exactly two observer notifications
during the call — one from the embedded connect step and one from the
framework data push `async_set_updated_data` (button-press events remain
a separate, excluded channel); the edge-detection scan itself adds no
observer notification beyond those two. -/
theorem c3_data_update_notifies_twice (dev : TuyaBLEDevice)
    (updates : List TuyaBLEDataPoint) (s : CoordState)
    (h : s.disconnected = true) :
    (async_handle_update dev updates s).disconnected = false
  ∧ (async_handle_update dev updates s).listenerNotifications
      = s.listenerNotifications + 2
  ∧ (async_handle_update dev updates s).listenerNotifications
      = (async_set_updated_data (async_handle_connect s)).listenerNotifications := by
  rw [update_eq]
  refine ⟨connect_disconnected s, ?_, ?_⟩
  · show (async_handle_connect s).listenerNotifications + 1 = _
    rw [connect_listener]
    simp [h]
  · show (async_handle_connect s).listenerNotifications + 1 = _
    simp [async_set_updated_data]

/-- Witness for C3 (amended) at a concrete disconnected state. -/
theorem c3_data_update_notifies_twice_witness :
    initState.disconnected = true
  ∧ ((async_handle_update dev0 [] initState).disconnected = false
     ∧ (async_handle_update dev0 [] initState).listenerNotifications
        = initState.listenerNotifications + 2
     ∧ (async_handle_update dev0 [] initState).listenerNotifications
        = (async_set_updated_data (async_handle_connect initState)).listenerNotifications) :=
  ⟨rfl, c3_data_update_notifies_twice dev0 [] initState rfl⟩

/-- Claim C4: in any run, a disconnect signal immediately followed by a
connect signal never lets the connected flag transition to false: the
disconnect step leaves the flag untouched, the connect step leaves the
coordinator connected with the pending timer cancelled, and every state
visited afterwards is still connected with no scheduled timer, so the
debounce-fire callback `_set_disconnected` never executes. -/
theorem c4_debounce_cancellation (dev : TuyaBLEDevice)
    (pre suffix : List Step) :
    (async_handle_disconnect (runSteps dev initState pre)).disconnected
        = (runSteps dev initState pre).disconnected
  ∧ (async_handle_connect
        (async_handle_disconnect (runSteps dev initState pre))).disconnected
      = false
  ∧ (async_handle_connect
        (async_handle_disconnect (runSteps dev initState pre))).alive = []
  ∧ ∀ t ∈ visited dev
        (async_handle_connect
          (async_handle_disconnect (runSteps dev initState pre))) suffix,
      t.disconnected = false ∧ t.alive = [] := by
  have h1 : TimerInv (async_handle_disconnect (runSteps dev initState pre)) :=
    timerInv_disconnect _ (timerInv_run dev pre initState timerInv_init)
  have hq : Quiescent (async_handle_connect
      (async_handle_disconnect (runSteps dev initState pre))) := by
    refine ⟨connect_disconnected _, connect_alive_of_inv _ h1, ?_⟩
    rw [connect_unsub]
    exact disconnect_unsub_isSome _
  refine ⟨disconnect_disconnected _, connect_disconnected _, hq.2.1, ?_⟩
  intro t ht
  have h := quiescent_visited dev suffix _ hq t ht
  exact ⟨h.1, h.2.1⟩

/-- Witness for C4: from the initial state, after disconnect then
connect, even an attempt to fire the cancelled timer leaves the
coordinator connected with no scheduled timer. -/
theorem c4_debounce_cancellation_witness :
    (fireTimer (async_handle_connect (async_handle_disconnect initState)) 0).disconnected
      = false
  ∧ (fireTimer (async_handle_connect (async_handle_disconnect initState)) 0).alive
      = [] :=
  (c4_debounce_cancellation dev0 [] [Step.fire 0]).2.2.2 _
    (List.mem_cons_of_mem _ (List.mem_cons_self _ _))

/-- Claim C6: when the device's catalog entry declares a fingerbot with
nonzero `manual_control`, `_async_handle_update` fires exactly one
button event, carrying the device's address and device id, per record
whose id equals the fingerbot switch id and whose `changed_by_device`
flag is true (no de-duplication within a batch); with `manual_control`
zero, with no fingerbot descriptor, or with no catalog entry, it fires
none. -/
theorem c6_button_edge_detection (dev : TuyaBLEDevice)
    (updates : List TuyaBLEDataPoint) (s : CoordState) :
    (∀ info fb, get_device_product_info dev = some info →
        info.fingerbot = some fb → fb.manual_control ≠ 0 →
        (async_handle_update dev updates s).firedEvents
          = s.firedEvents ++
              List.replicate (updates.countP (isButtonPress fb))
                { address := dev.address, device_id := dev.device_id })
  ∧ (∀ info fb, get_device_product_info dev = some info →
        info.fingerbot = some fb → fb.manual_control = 0 →
        (async_handle_update dev updates s).firedEvents = s.firedEvents)
  ∧ (∀ info, get_device_product_info dev = some info →
        info.fingerbot = none →
        (async_handle_update dev updates s).firedEvents = s.firedEvents)
  ∧ (get_device_product_info dev = none →
        (async_handle_update dev updates s).firedEvents = s.firedEvents) := by
  refine ⟨?_, ?_, ?_, ?_⟩
  · intro info fb hinfo hfb hm
    rw [update_eq]
    show (async_handle_connect s).firedEvents ++ buttonEvents dev updates = _
    rw [connect_firedEvents]
    simp [buttonEvents, hinfo, hfb, hm]
  · intro info fb hinfo hfb hm
    rw [update_eq]
    show (async_handle_connect s).firedEvents ++ buttonEvents dev updates = _
    rw [connect_firedEvents]
    simp [buttonEvents, hinfo, hfb, hm]
  · intro info hinfo hfb
    rw [update_eq]
    show (async_handle_connect s).firedEvents ++ buttonEvents dev updates = _
    rw [connect_firedEvents]
    simp [buttonEvents, hinfo, hfb]
  · intro hinfo
    rw [update_eq]
    show (async_handle_connect s).firedEvents ++ buttonEvents dev updates = _
    rw [connect_firedEvents]
    simp [buttonEvents, hinfo]

/-- Witness for C6: a Fingerbot Plus batch with two device-changed
records on the switch id fires exactly two events (no de-duplication)
while the `changed_by_device = false` record fires none; the
manual-control-disabled Fingerbot and a fingerbot-less product fire
nothing. -/
theorem c6_button_edge_detection_witness :
    (async_handle_update fingerbotDev
        [ { id := 2, value := true, changed_by_device := true },
          { id := 2, value := true, changed_by_device := false },
          { id := 2, value := true, changed_by_device := true } ]
        initState).firedEvents
      = [ { address := "11:22:33:44:55:66", device_id := "fb1" },
          { address := "11:22:33:44:55:66", device_id := "fb1" } ]
  ∧ (async_handle_update plainFingerbotDev
        [ { id := 2, value := true, changed_by_device := true } ]
        initState).firedEvents = []
  ∧ (async_handle_update dev0
        [ { id := 5, value := true, changed_by_device := true } ]
        initState).firedEvents = [] := by
  refine ⟨?_, ?_, ?_⟩
  · rw [(c6_button_edge_detection fingerbotDev _ initState).1
        fingerbot_plus fingerbot_plus_fb rfl rfl (by decide)]
    rfl
  · rw [(c6_button_edge_detection plainFingerbotDev _ initState).2.1
        fingerbot_product fingerbot_fb rfl rfl rfl]
    rfl
  · rw [(c6_button_edge_detection dev0 _ initState).2.2.1
        co2_detector rfl rfl]
    rfl

/-- Claim C9: `get_short_address` is the colon-join of the last three
colon-separated groups of `get_full_address`, and when the normalised
address has at most three groups the whole normalised address is
returned unchanged. -/
theorem c9_short_address (address : List Char) :
    get_short_address address
        = intercalate ':' (lastN 3 (splitOn ':' (get_full_address address)))
  ∧ ((splitOn ':' (get_full_address address)).length ≤ 3 →
      get_short_address address = get_full_address address) := by
  refine ⟨rfl, fun h => ?_⟩
  unfold get_short_address lastN
  rw [Nat.sub_eq_zero_of_le h, List.drop_zero, intercalate_splitOn]

/-- Witness for C9 on the short address `aa-bb`: its normalised form
`AA:BB` has two groups, so the short address is the full address. -/
theorem c9_short_address_witness :
    (splitOn ':' (get_full_address ['a', 'a', '-', 'b', 'b'])).length ≤ 3
  ∧ get_short_address ['a', 'a', '-', 'b', 'b']
      = get_full_address ['a', 'a', '-', 'b', 'b'] :=
  ⟨by decide, (c9_short_address ['a', 'a', '-', 'b', 'b']).2 (by decide)⟩

/-- Claim C10: `get_product_info_by_ids` is total and returns the exact
product entry on a category/product hit, falls back to the category's
`info` field on a product miss, returns `none` for an unknown category,
and since every category of the shipped database has `info = none`, an
unknown product id in a known category yields `none`. -/
theorem c10_product_lookup (category product_id : String) :
    (devices_database.lookup category = none →
      get_product_info_by_ids category product_id = none)
  ∧ (∀ ci, devices_database.lookup category = some ci →
      (∀ p, ci.products.lookup product_id = some p →
        get_product_info_by_ids category product_id = some p)
      ∧ (ci.products.lookup product_id = none →
        get_product_info_by_ids category product_id = ci.info))
  ∧ (∀ e ∈ devices_database, (e : String × TuyaBLECategoryInfo).2.info = none)
  ∧ (∀ ci, devices_database.lookup category = some ci →
      ci.products.lookup product_id = none →
      get_product_info_by_ids category product_id = none) := by
  have hdb : ∀ e ∈ devices_database,
      (e : String × TuyaBLECategoryInfo).2.info = none := by decide
  refine ⟨?_, ?_, hdb, ?_⟩
  · intro h
    simp [get_product_info_by_ids, h]
  · intro ci hci
    constructor
    · intro p hp
      simp [get_product_info_by_ids, hci, hp]
    · intro hp
      simp [get_product_info_by_ids, hci, hp]
  · intro ci hci hp
    obtain ⟨k, hm⟩ := lookup_mem_values devices_database category ci hci
    have hinfo : ci.info = none := hdb (k, ci) hm
    simp [get_product_info_by_ids, hci, hp, hinfo]

/-- Witness for C10: an exact hit returns the entry, a product miss in a
known category returns `none`, and an unknown category returns `none`. -/
theorem c10_product_lookup_witness :
    get_product_info_by_ids "szjqr" "3yqdo5yt" = some cubetouch_1s
  ∧ get_product_info_by_ids "szjqr" "no_such_product" = none
  ∧ get_product_info_by_ids "no_such_category" "x" = none := by
  refine ⟨?_, ?_, ?_⟩
  · exact ((c10_product_lookup "szjqr" "3yqdo5yt").2.1 _ rfl).1 cubetouch_1s rfl
  · exact (c10_product_lookup "szjqr" "no_such_product").2.2.2 _ rfl rfl
  · exact (c10_product_lookup "no_such_category" "x").1 rfl

end TuyaBLE
